import Mathlib

/-!
Shallow embedding of `src/Batt_Board/lib/pysquared_eps.py` (class `Satellite`),
the hardware-abstraction and actuation layer of the inspireFly flight software.

Modelling conventions:
* Hardware attributes touched by the modelled methods become fields of the
  `Satellite` structure (relay line, RGB indicator, heater channel duty, face
  channel duties, capability-table entries, NVM flags and counters).
* Every hardware write increments a `writes` counter so that "performs zero
  hardware writes" is statable.
* Fallible hardware calls are parametrised by explicit fault-injection flags
  (one `Bool` per source line that can raise); a raised Python exception is an
  explicit `Exc` value.  Plain attribute assignments and NVM flag writes are
  modelled as non-faulting.  Python `try/except/finally` control flow is
  encoded exactly: an exception raised inside a `finally` block discards a
  pending `return` and propagates.
* A Python local variable that may be referenced before assignment
  (`burnwire` in `burn`) is an `Option`; referencing `none` raises
  `Exc.unboundLocal`, exactly as CPython raises `UnboundLocalError`.
* Numeric values are exact rationals (`ℚ`); Python `int()` truncation toward
  zero is `pyInt`.
-/

namespace Pysquared

/-- The `digitalio.DriveMode` of the relay control pin. -/
inductive DriveMode where
  | pushPull
  | openDrain
deriving DecidableEq, Repr

/-- Python exceptions distinguished by the model: a fault raised by a hardware
call, CPython's `UnboundLocalError` (a local referenced before assignment),
and `AttributeError` (attribute never created because its init step failed). -/
inductive Exc where
  | hw
  | unboundLocal
  | attrError
deriving DecidableEq, Repr

/-- The `pwmio.PWMOut` object created by `burn` (line 673): its current
`duty_cycle` and whether `deinit()` has been called on it. -/
structure PWMOut where
  duty_cycle : ℤ
  deinited : Bool
deriving DecidableEq, Repr

/-- State of the `Satellite` object: the hardware attributes and NVM-backed
flags/counters that the modelled methods read or write.  Boolean fields
`neo`, `fld`, `pwr`, `solar`, `temp`, `couple`, `face0`..`face4` are the
corresponding entries of the `self.hardware` capability dictionary. -/
structure Satellite where
  relayA_value : ℕ
  relayA_drive_mode : DriveMode
  rgb : ℕ × ℕ × ℕ
  neo : Bool
  fld : Bool
  pwr : Bool
  solar : Bool
  temp : Bool
  couple : Bool
  face0 : Bool
  face1 : Bool
  face2 : Bool
  face3 : Bool
  face4 : Bool
  face0_duty : ℕ
  face1_duty : ℕ
  face2_duty : ℕ
  face3_duty : ℕ
  face4_duty : ℕ
  heater_duty : ℕ
  heating : Bool
  f_burnarm : Bool
  f_brownout : Bool
  f_burned : Bool
  c_distance : ℕ
  writes : ℕ
deriving DecidableEq, Repr

/-- The `RGB` property setter (lines 313-321): writes the neopixel only when
the NEO capability is present; a fault in the neopixel write (`ok = false`)
is caught inside the setter and never propagates. -/
def setRGB (st : Satellite) (ok : Bool) (v : ℕ × ℕ × ℕ) : Satellite :=
  if st.neo then
    if ok then { st with rgb := v, writes := st.writes + 1 } else st
  else st

/-- Python `int()` applied to a rational: truncation toward zero. -/
def pyInt (q : ℚ) : ℤ :=
  if 0 ≤ q then ⌊q⌋ else ⌈q⌉

/-- Line 663: `dtycycl = int((dutycycle / 100) * (0xFFFF))`. -/
def dtycyclOf (dutycycle : ℚ) : ℤ :=
  pyInt (dutycycle / 100 * 65535)

/-- The conversion the spec describes: `round(duty_percent/100 * 0xFFFF)`. -/
def specDuty (dutycycle : ℚ) : ℤ :=
  round (dutycycle / 100 * 65535)

/-- Fault-injection flags for `burn` (lines 648-703): `true` means the
corresponding hardware call raises when reached.  `rgbOn`, `rgbOff` and
`rgbFin` are neopixel faults, caught inside the `RGB` setter. -/
structure BurnFaults where
  factory : Bool
  driveHigh : Bool
  relayHigh : Bool
  rgbOn : Bool
  dutySet : Bool
  relayLow : Bool
  dutyZero : Bool
  rgbOff : Bool
  driveLow : Bool
  rgbFin : Bool
deriving DecidableEq, Repr

/-- Outcome of the `try` body of `burn` (lines 661-692). -/
inductive TryOut where
  | retTrue
  | retFalse
  | raisedHw
deriving DecidableEq, Repr

/-- The `try` body of `burn`, lines 661-692.  Returns the control-flow
outcome, the updated satellite state, and the local variable `burnwire`
(`none` while unbound).  A faulting assignment performs no write. -/
def burnTryBody (st : Satellite) (burn_num : String) (dtycycl : ℤ)
    (f : BurnFaults) : TryOut × Satellite × Option PWMOut :=
  -- lines 672-675: allocate the PWM only for a supported channel; the
  -- Python test is the one-character substring test `"1" in burn_num`
  if burn_num.data.contains '1' then
    if f.factory then (.raisedHw, st, none)
    else
      let bw : PWMOut := { duty_cycle := 0, deinited := false }
      -- line 677: relay drive mode to push-pull
      if f.driveHigh then (.raisedHw, st, some bw)
      else
        let st := { st with relayA_drive_mode := .pushPull,
                            writes := st.writes + 1 }
        -- line 678: drive relay high
        if f.relayHigh then (.raisedHw, st, some bw)
        else
          let st := { st with relayA_value := 1, writes := st.writes + 1 }
          -- line 679: indicator to (255,165,0); line 681: sleep
          let st := setRGB st (!f.rgbOn) (255, 165, 0)
          -- line 684: apply the duty cycle; line 685: sleep for duration
          if f.dutySet then (.raisedHw, st, some bw)
          else
            let bw := { bw with duty_cycle := dtycycl }
            let st := { st with writes := st.writes + 1 }
            -- line 687: relay low
            if f.relayLow then (.raisedHw, st, some bw)
            else
              let st := { st with relayA_value := 0, writes := st.writes + 1 }
              -- line 688: duty back to 0
              if f.dutyZero then (.raisedHw, st, some bw)
              else
                let bw := { bw with duty_cycle := 0 }
                let st := { st with writes := st.writes + 1 }
                -- line 689: indicator cleared
                let st := setRGB st (!f.rgbOff) (0, 0, 0)
                -- line 691: drive mode back to open-drain
                if f.driveLow then (.raisedHw, st, some bw)
                else
                  let st := { st with relayA_drive_mode := .openDrain,
                                      writes := st.writes + 1 }
                  (.retTrue, st, some bw)
  else (.retFalse, st, none)

/-- The `finally` block of `burn`, lines 698-703.  Referencing `burnwire`
while it is unbound (line 700) raises `UnboundLocalError`; the write to
the relay on line 699 has already happened at that point. -/
def burnFinally (st : Satellite) (bw : Option PWMOut) (rgbFin : Bool) :
    Option Exc × Satellite × Option PWMOut :=
  -- line 699: relay value low
  let st := { st with relayA_value := 0, writes := st.writes + 1 }
  match bw with
  | none => (some .unboundLocal, st, none)
  | some p =>
    -- line 700: duty to 0
    let p := { p with duty_cycle := 0 }
    let st := { st with writes := st.writes + 1 }
    -- line 701: indicator cleared
    let st := setRGB st (!rgbFin) (0, 0, 0)
    -- line 702: deinit the PWM
    let p := { p with deinited := true }
    let st := { st with writes := st.writes + 1 }
    -- line 703: drive mode back to open-drain
    let st := { st with relayA_drive_mode := .openDrain,
                        writes := st.writes + 1 }
    (none, st, some p)

/-- Overall result of a call to `burn`: a returned boolean or a propagated
exception. -/
inductive BurnResult where
  | ret (b : Bool)
  | raised (e : Exc)
deriving DecidableEq, Repr

/-- Method `burn(burn_num, dutycycle, freq, duration)`, lines 648-703.  The `except`
clause (lines 693-697) converts a raised hardware fault into a pending
`return False`; the `finally` block then runs, and an exception raised
inside it replaces the pending return (CPython semantics). -/
def burn (st : Satellite) (burn_num : String) (dutycycle : ℚ)
    (f : BurnFaults) : BurnResult × Satellite × Option PWMOut :=
  let dtycycl := dtycyclOf dutycycle
  let r := burnTryBody st burn_num dtycycl f
  -- lines 693-697: `except Exception` logs and returns False
  let pending : Bool :=
    match r.1 with
    | .retTrue => true
    | .retFalse => false
    | .raisedHw => false
  let fin := burnFinally r.2.1 r.2.2 f.rgbFin
  match fin.1 with
  | some e => (.raised e, fin.2)
  | none => (.ret pending, fin.2)

/-- Fault-injection flags for `heater_on` (lines 605-626): `driveMode` is the
drive-mode assignment on line 608, `relayHigh` line 614, `rgbOn` the neopixel
write inside the `RGB` setter (caught there), `dutySet` line 618, and
`dutyZeroInExcept` the recovery write on line 624 inside the `except`
handler (a fault there propagates out of `heater_on`). -/
structure HeaterFaults where
  driveMode : Bool
  relayHigh : Bool
  rgbOn : Bool
  dutySet : Bool
  dutyZeroInExcept : Bool
deriving DecidableEq, Repr

/-- The `except` handler shared by `heater_on` (lines 619-624) and
`heater_off` (lines 639-644): log, then force `heater.duty_cycle = 0x0000`;
if that recovery write itself raises, the exception propagates. -/
def heaterExceptHandler (st : Satellite) (recoveryFaults : Bool) :
    Option Exc × Satellite :=
  if recoveryFaults then (some .hw, st)
  else (none, { st with heater_duty := 0, writes := st.writes + 1 })

/-- Method `heater_on`, lines 605-626.  Note the source sets the relay drive mode to
push-pull (line 608) BEFORE testing `f_brownout` (line 609); only then, if the
guard flag is clear, does it set `f_brownout`/`heating`, drive the relay high,
set the indicator, sleep, and apply duty `0x7FFF`. -/
def heater_on (st : Satellite) (f : HeaterFaults) : Option Exc × Satellite :=
  if st.fld then
    -- line 608: drive mode to push-pull
    if f.driveMode then heaterExceptHandler st f.dutyZeroInExcept
    else
      let st := { st with relayA_drive_mode := .pushPull,
                          writes := st.writes + 1 }
      -- lines 609-610: guard already set, `pass`
      if st.f_brownout then (none, st)
      else
        -- lines 612-613: set guard flag and volatile heating flag
        let st := { st with f_brownout := true, heating := true }
        -- line 614: relay high
        if f.relayHigh then heaterExceptHandler st f.dutyZeroInExcept
        else
          let st := { st with relayA_value := 1, writes := st.writes + 1 }
          -- line 615: indicator to (255,165,0); line 617: sleep
          let st := setRGB st (!f.rgbOn) (255, 165, 0)
          -- line 618: heater duty to 0x7FFF
          if f.dutySet then heaterExceptHandler st f.dutyZeroInExcept
          else (none, { st with heater_duty := 0x7FFF,
                                writes := st.writes + 1 })
  else (none, st)

/-- Fault-injection flags for `heater_off` (lines 628-646). -/
structure HeaterOffFaults where
  dutyZero : Bool
  relayLow : Bool
  driveMode : Bool
  rgbOff : Bool
  dutyZeroInExcept : Bool
deriving DecidableEq, Repr

/-- Method `heater_off`, lines 628-646: unconditionally zero the duty, drive the
relay low and restore open-drain; clear `heating`/`f_brownout` and the
indicator only if `heating` was set. -/
def heater_off (st : Satellite) (f : HeaterOffFaults) :
    Option Exc × Satellite :=
  if st.fld then
    -- line 631: duty to 0
    if f.dutyZero then heaterExceptHandler st f.dutyZeroInExcept
    else
      let st := { st with heater_duty := 0, writes := st.writes + 1 }
      -- line 632: relay low
      if f.relayLow then heaterExceptHandler st f.dutyZeroInExcept
      else
        let st := { st with relayA_value := 0, writes := st.writes + 1 }
        -- line 633: drive mode to open-drain
        if f.driveMode then heaterExceptHandler st f.dutyZeroInExcept
        else
          let st := { st with relayA_drive_mode := .openDrain,
                              writes := st.writes + 1 }
          -- lines 634-638: clear flags and indicator only if heating
          if st.heating then
            let st := { st with heating := false, f_brownout := false }
            (none, setRGB st (!f.rgbOff) (0, 0, 0))
          else (none, st)
  else (none, st)

/-- Method `arm_satellite`, lines 355-359 (via the `burnarm`/`burned`/`dist`
property setters, lines 331-353). -/
def arm_satellite (st : Satellite) : Satellite :=
  { st with f_burnarm := true, f_burned := false, c_distance := 0 }

/-- Method `disarm_satellite`, lines 361-365. -/
def disarm_satellite (st : Satellite) : Satellite :=
  { st with f_burnarm := false, f_burned := true, c_distance := 0 }

/-- One call to an actuation operation of the arm/disarm/burn group. -/
inductive SatOp where
  | arm
  | disarm
  | burnOp (burn_num : String) (dutycycle : ℚ) (f : BurnFaults)

/-- Run one operation, keeping the resulting satellite state. -/
def runOp (st : Satellite) : SatOp → Satellite
  | .arm => arm_satellite st
  | .disarm => disarm_satellite st
  | .burnOp n d f => (burn st n d f).2.1

/-- Run a finite sequence of arm/disarm/burn operations. -/
def runOps (st : Satellite) : List SatOp → Satellite
  | [] => st
  | op :: rest => runOps (runOp st op) rest

/-- Method `all_faces_off`, lines 81-98.  `fault i = true` means the duty-cycle write
for face `i` raises.  The method has no `try`/`except`: the first fault
propagates, leaving the faces already processed recorded off and the rest
untouched. -/
def all_faces_off (st : Satellite) (fault : ℕ → Bool) :
    Option Exc × Satellite :=
  if st.fld then
    if fault 0 then (some .hw, st)
    else
      let st := { st with face0_duty := 0, face0 := false,
                          writes := st.writes + 1 }
      if fault 1 then (some .hw, st)
      else
        let st := { st with face1_duty := 0, face1 := false,
                            writes := st.writes + 1 }
        if fault 2 then (some .hw, st)
        else
          let st := { st with face2_duty := 0, face2 := false,
                              writes := st.writes + 1 }
          if fault 3 then (some .hw, st)
          else
            let st := { st with face3_duty := 0, face3 := false,
                                writes := st.writes + 1 }
            if fault 4 then (some .hw, st)
            else
              (none, { st with face4_duty := 0, face4 := false,
                               writes := st.writes + 1 })
  else (none, st)

/-- Result of a telemetry property access: the returned value (`none` is
Python's implicit `None`, the "unavailable" result) or a propagated
exception; paired with the number of bus reads performed. -/
inductive PyRes (α : Type) where
  | ok (a : α)
  | raised (e : Exc)
deriving DecidableEq, Repr

/-- Sum of `n` sequential fallible bus reads, with the count of reads
attempted; a failing read aborts the sum (its exception is caught by the
caller's `try`). -/
def sumReads (read : ℕ → Option ℚ) : ℕ → Option ℚ × ℕ
  | 0 => (some 0, 0)
  | n + 1 =>
    match sumReads read n with
    | (some s, c) =>
      match read n with
      | some v => (some (s + v), c + 1)
      | none => (none, c + 1)
    | (none, c) => (none, c)

/-- Sum of `n` iterations each reading `bus` then `shunt` (two reads per
iteration, as in `system_voltage`). -/
def sumReads2 (bus shunt : ℕ → Option ℚ) : ℕ → Option ℚ × ℕ
  | 0 => (some 0, 0)
  | n + 1 =>
    match sumReads2 bus shunt n with
    | (some s, c) =>
      match bus n with
      | some v =>
        match shunt n with
        | some w => (some (s + v + w), c + 2)
        | none => (none, c + 2)
      | none => (none, c + 1)
    | (none, c) => (none, c)

/-- Property `battery_voltage`, lines 493-506: gated on `hardware["PWR"]`; averages 50
`bus_voltage` reads and adds the 0.2 V correction; a read fault is caught and
the property falls through to the implicit `None`. -/
def battery_voltage (st : Satellite) (read : ℕ → Option ℚ) :
    PyRes (Option ℚ) × ℕ :=
  if st.pwr then
    match sumReads read 50 with
    | (some s, c) => (.ok (some (s / 50 + 1/5)), c)
    | (none, c) => (.ok none, c)
  else (.ok none, 0)

/-- Property `system_voltage`, lines 508-521: gated on PWR; 50 iterations of
`bus_voltage + shunt_voltage`, averaged, no offset. -/
def system_voltage (st : Satellite) (bus shunt : ℕ → Option ℚ) :
    PyRes (Option ℚ) × ℕ :=
  if st.pwr then
    match sumReads2 bus shunt 50 with
    | (some s, c) => (.ok (some (s / 50)), c)
    | (none, c) => (.ok none, c)
  else (.ok none, 0)

/-- Property `current_draw`, lines 523-536: gated on PWR; averages 50 `current`
reads, no offset. -/
def current_draw (st : Satellite) (read : ℕ → Option ℚ) :
    PyRes (Option ℚ) × ℕ :=
  if st.pwr then
    match sumReads read 50 with
    | (some s, c) => (.ok (some (s / 50)), c)
    | (none, c) => (.ok none, c)
  else (.ok none, 0)

/-- Property `charge_voltage`, lines 542-556: gated on SOLAR; averages 50
`bus_voltage` reads plus the 0.2 V correction. -/
def charge_voltage (st : Satellite) (read : ℕ → Option ℚ) :
    PyRes (Option ℚ) × ℕ :=
  if st.solar then
    match sumReads read 50 with
    | (some s, c) => (.ok (some (s / 50 + 1/5)), c)
    | (none, c) => (.ok none, c)
  else (.ok none, 0)

/-- Property `charge_current`, lines 558-572: gated on SOLAR; averages 50 `current`
reads, no offset. -/
def charge_current (st : Satellite) (read : ℕ → Option ℚ) :
    PyRes (Option ℚ) × ℕ :=
  if st.solar then
    match sumReads read 50 with
    | (some s, c) => (.ok (some (s / 50)), c)
    | (none, c) => (.ok none, c)
  else (.ok none, 0)

/-- Property `internal_temperature`, lines 592-594: `return self.pct.temperature` with
NO capability check and no `try`.  When the TEMP init step failed the `pct`
attribute was never created, so the access raises `AttributeError` before any
bus read; when present, the single sensor read can fault and propagates. -/
def internal_temperature (st : Satellite) (read : Option ℚ) :
    PyRes ℚ × ℕ :=
  if st.temp then
    match read with
    | some v => (.ok v, 1)
    | none => (.raised .hw, 1)
  else (.raised .attrError, 0)

/-- Property `battery_temperature`, lines 596-603: gated on COUPLE; one ADC voltage
read transformed by `(v - 1.25) / 0.005`; no `try`, so a read fault
propagates. -/
def battery_temperature (st : Satellite) (read : Option ℚ) :
    PyRes (Option ℚ) × ℕ :=
  if st.couple then
    match read with
    | some v => (.ok (some ((v - 5/4) / (5/1000))), 1)
    | none => (.raised .hw, 1)
  else (.ok none, 0)

/-- A satellite state as left by a fully successful `__init__`: relay low in
open-drain (line 142), neopixel blue (line 217), all capabilities present,
faces on at full duty (`all_faces_on`, called on line 177), no flags set. -/
def initSat : Satellite :=
  { relayA_value := 0
    relayA_drive_mode := .openDrain
    rgb := (0, 0, 255)
    neo := true
    fld := true
    pwr := true
    solar := true
    temp := true
    couple := true
    face0 := true
    face1 := true
    face2 := true
    face3 := true
    face4 := true
    face0_duty := 0xFFFF
    face1_duty := 0xFFFF
    face2_duty := 0xFFFF
    face3_duty := 0xFFFF
    face4_duty := 0xFFFF
    heater_duty := 0
    heating := false
    f_burnarm := false
    f_brownout := false
    f_burned := false
    c_distance := 0
    writes := 0 }

/-- No fault injected at any step of `burn`. -/
def noBurnFaults : BurnFaults :=
  { factory := false, driveHigh := false, relayHigh := false, rgbOn := false,
    dutySet := false, relayLow := false, dutyZero := false, rgbOff := false,
    driveLow := false, rgbFin := false }

/-- Faults for `burn` in which only the PWM factory (`pwmio.PWMOut`, line 673) raises. -/
def factoryFault : BurnFaults :=
  { noBurnFaults with factory := true }

/-- No fault injected at any step of `heater_on`. -/
def noHeaterFaults : HeaterFaults :=
  { driveMode := false, relayHigh := false, rgbOn := false, dutySet := false,
    dutyZeroInExcept := false }

/-- No fault injected at any step of `heater_off`. -/
def noHeaterOffFaults : HeaterOffFaults :=
  { dutyZero := false, relayLow := false, driveMode := false, rgbOff := false,
    dutyZeroInExcept := false }

/-- A state with the brownout-guard flag already set. -/
def stGuard : Satellite :=
  { initSat with f_brownout := true }

/-- A state in which the TEMP init step failed (`pct` attribute missing). -/
def stNoTemp : Satellite :=
  { initSat with temp := false }

/-- A state in which none of the telemetry peripherals initialized. -/
def stNoCaps : Satellite :=
  { initSat with pwr := false, solar := false, temp := false, couple := false }

/-- Helper for C6: the `try` body of `burn` never touches the
`f_burnarm`/`f_burned` NVM flags. -/
theorem burnTryBody_preserves_arm_flags (st : Satellite) (n : String)
    (d : ℤ) (f : BurnFaults) :
    (burnTryBody st n d f).2.1.f_burnarm = st.f_burnarm ∧
    (burnTryBody st n d f).2.1.f_burned = st.f_burned := by
  unfold burnTryBody
  repeat' split
  all_goals constructor <;>
    simp [setRGB, apply_ite Satellite.f_burnarm, apply_ite Satellite.f_burned]

/-- Helper for C6: the `finally` block of `burn` never touches the
`f_burnarm`/`f_burned` NVM flags. -/
theorem burnFinally_preserves_arm_flags (st : Satellite) (bw : Option PWMOut)
    (b : Bool) :
    (burnFinally st bw b).2.1.f_burnarm = st.f_burnarm ∧
    (burnFinally st bw b).2.1.f_burned = st.f_burned := by
  unfold burnFinally
  repeat' split
  all_goals constructor <;>
    simp [setRGB, apply_ite Satellite.f_burnarm, apply_ite Satellite.f_burned]

/-- Helper for C6: the state component of `burn` is the state left by the
`finally` block applied after the `try` body. -/
theorem burn_snd (st : Satellite) (n : String) (q : ℚ) (f : BurnFaults) :
    (burn st n q f).2 =
      (burnFinally (burnTryBody st n (dtycyclOf q) f).2.1
        (burnTryBody st n (dtycyclOf q) f).2.2 f.rgbFin).2 := by
  unfold burn
  dsimp only []
  split <;> rfl

/-- Helper for C6: `burn` never touches the `f_burnarm`/`f_burned` NVM
flags, on any channel and under any fault injection. -/
theorem burn_preserves_arm_flags (st : Satellite) (n : String) (q : ℚ)
    (f : BurnFaults) :
    (burn st n q f).2.1.f_burnarm = st.f_burnarm ∧
    (burn st n q f).2.1.f_burned = st.f_burned := by
  rw [burn_snd st n q f]
  obtain ⟨h1a, h1b⟩ := burnTryBody_preserves_arm_flags st n (dtycyclOf q) f
  obtain ⟨h2a, h2b⟩ := burnFinally_preserves_arm_flags
    (burnTryBody st n (dtycyclOf q) f).2.1
    (burnTryBody st n (dtycyclOf q) f).2.2 f.rgbFin
  exact ⟨h2a.trans h1a, h2b.trans h1b⟩

/-- C1: the claim says that for the supported channel, on every exit path
including exceptions, `burn` returns with relay low, duty 0, the PWM
deinitialized, the indicator cleared to (0,0,0) and the drive mode back to
open-drain.  The code violates this: when the PWM factory (line 673) raises,
the `finally` block references the never-assigned local `burnwire`
(line 700) and raises `UnboundLocalError` after the relay write of line 699,
so `burn` exits by exception with the indicator still at its prior color
(here the boot-time blue (0,0,255)), no PWM deinit, and the remaining
cleanup lines never executed. -/
theorem burn_supported_channel_cleanup_bug :
    (burn initSat "1" 50 factoryFault).1 = .raised .unboundLocal ∧
    (burn initSat "1" 50 factoryFault).2.1.rgb = (0, 0, 255) ∧
    (burn initSat "1" 50 factoryFault).2.1.relayA_value = 0 ∧
    (burn initSat "1" 50 factoryFault).2.2 = none := by decide

/-- C2: the claim says `burn` always returns a boolean and never propagates
an exception, for every input and every hardware behaviour including a
failing PWM allocation.  The code violates this: with the supported channel
and the PWM allocation raising, the `except` clause catches the fault and
leaves `return False` pending, but the `finally` block then raises
`UnboundLocalError` on the unbound local `burnwire`, which replaces the
pending return and propagates to the caller. -/
theorem burn_pwm_allocation_fault_propagates :
    (burn initSat "1" 60 factoryFault).1 = .raised .unboundLocal := by decide

/-- C3: the claim says an unsupported channel id makes `burn` return `False`
with zero hardware writes.  The code violates this: the `return False` of
line 675 triggers the `finally` block, which first drives the relay low
(line 699, one hardware write) and then raises `UnboundLocalError` on the
unbound local `burnwire` (line 700), so the call performs a hardware write
and raises instead of returning `False`. -/
theorem burn_unsupported_channel_raises_and_writes :
    (burn initSat "2" 50 noBurnFaults).1 = .raised .unboundLocal ∧
    (burn initSat "2" 50 noBurnFaults).2.1.writes = 1 := by decide

/-- C4 counterexample: with the brownout guard already set (and FLD present)
`heater_on` is NOT a no-op: line 608 switches the relay drive mode to
push-pull before the guard flag is even tested on line 609, so the state
changes and a hardware write occurs. -/
theorem heater_on_guard_set_not_noop :
    stGuard.relayA_drive_mode = DriveMode.openDrain ∧
    (heater_on stGuard noHeaterFaults).2.relayA_drive_mode =
      DriveMode.pushPull ∧
    (heater_on stGuard noHeaterFaults).2.writes = stGuard.writes + 1 := by
  decide

/-- C4 amended: with the brownout guard already set, FLD present and the
drive-mode write succeeding, `heater_on` raises nothing and performs exactly
one hardware action — switching the relay drive mode to push-pull — leaving
`heating`, `f_brownout`, the heater duty, the relay value and the indicator
unchanged. -/
theorem heater_on_guard_set_only_drive_mode (st : Satellite)
    (f : HeaterFaults) (hfld : st.fld = true) (hg : st.f_brownout = true)
    (hdm : f.driveMode = false) :
    heater_on st f =
      (none, { st with relayA_drive_mode := .pushPull,
                       writes := st.writes + 1 }) := by
  unfold heater_on
  rw [hfld, hdm]
  simp only [if_true, Bool.false_eq_true, if_false, hg]

/-- Witness for C4: the amended statement at the concrete guarded state. -/
theorem heater_on_guard_set_only_drive_mode_witness :
    stGuard.fld = true ∧ stGuard.f_brownout = true ∧
    noHeaterFaults.driveMode = false ∧
    heater_on stGuard noHeaterFaults =
      (none, { stGuard with relayA_drive_mode := .pushPull,
                            writes := stGuard.writes + 1 }) :=
  ⟨rfl, rfl, rfl,
   heater_on_guard_set_only_drive_mode stGuard noHeaterFaults rfl rfl rfl⟩

/-- C5 counterexample: the claim says every telemetry accessor, including
`internal_temperature`, returns an "unavailable" result without raising when
its capability entry is false.  `internal_temperature` (lines 592-594) has
no capability check: with TEMP absent, the access to the never-created
`pct` attribute raises `AttributeError` instead of returning `None`. -/
theorem internal_temperature_absent_raises :
    internal_temperature stNoTemp (some 25) = (.raised .attrError, 0) := by
  decide

/-- C5 amended: with the relevant capability entry false, the six accessors
`battery_voltage`, `system_voltage`, `current_draw`, `charge_voltage`,
`charge_current` and `battery_temperature` return the unavailable result
(`None`) without raising and with zero bus reads; `internal_temperature`
alone performs no capability check and raises `AttributeError` (still with
zero bus reads). -/
theorem telemetry_capability_gating (st : Satellite) (r r2 : ℕ → Option ℚ)
    (p : Option ℚ) (hpwr : st.pwr = false) (hsolar : st.solar = false)
    (hcouple : st.couple = false) (htemp : st.temp = false) :
    battery_voltage st r = (.ok none, 0) ∧
    system_voltage st r r2 = (.ok none, 0) ∧
    current_draw st r = (.ok none, 0) ∧
    charge_voltage st r = (.ok none, 0) ∧
    charge_current st r = (.ok none, 0) ∧
    battery_temperature st p = (.ok none, 0) ∧
    internal_temperature st p = (.raised .attrError, 0) := by
  simp [battery_voltage, system_voltage, current_draw, charge_voltage,
        charge_current, battery_temperature, internal_temperature,
        hpwr, hsolar, hcouple, htemp]

/-- Witness for C5: the amended statement at the concrete state with no
telemetry capability present. -/
theorem telemetry_capability_gating_witness :
    stNoCaps.pwr = false ∧ stNoCaps.solar = false ∧
    stNoCaps.couple = false ∧ stNoCaps.temp = false ∧
    (battery_voltage stNoCaps (fun _ => some 5) = (.ok none, 0) ∧
     system_voltage stNoCaps (fun _ => some 5) (fun _ => some 5) =
       (.ok none, 0) ∧
     current_draw stNoCaps (fun _ => some 5) = (.ok none, 0) ∧
     charge_voltage stNoCaps (fun _ => some 5) = (.ok none, 0) ∧
     charge_current stNoCaps (fun _ => some 5) = (.ok none, 0) ∧
     battery_temperature stNoCaps (some 25) = (.ok none, 0) ∧
     internal_temperature stNoCaps (some 25) = (.raised .attrError, 0)) :=
  ⟨rfl, rfl, rfl, rfl,
   telemetry_capability_gating stNoCaps (fun _ => some 5) (fun _ => some 5)
     (some 25) rfl rfl rfl rfl⟩

/-- C6: starting from any state in which `f_burnarm` and `f_burned` are not
both set, no finite sequence of `arm_satellite`, `disarm_satellite` and
`burn` calls (any channel, any duty, any fault injection) can reach a state
with both flags set: `arm_satellite` forces `f_burned := false`,
`disarm_satellite` forces `f_burnarm := false`, and `burn` never touches
either flag. -/
theorem arm_disarm_burn_never_armed_and_burned (st : Satellite)
    (ops : List SatOp)
    (h : ¬(st.f_burnarm = true ∧ st.f_burned = true)) :
    ¬((runOps st ops).f_burnarm = true ∧
      (runOps st ops).f_burned = true) := by
  induction ops generalizing st with
  | nil => exact h
  | cons op rest ih =>
    refine ih _ ?_
    cases op with
    | arm => simp [runOp, arm_satellite]
    | disarm => simp [runOp, disarm_satellite]
    | burnOp n d f =>
      have hp := burn_preserves_arm_flags st n d f
      simp only [runOp]
      rw [hp.1, hp.2]
      exact h

/-- Witness for C6: the invariant holds along a concrete arm/disarm/burn
sequence from the freshly initialized state. -/
theorem arm_disarm_burn_never_armed_and_burned_witness :
    ¬(initSat.f_burnarm = true ∧ initSat.f_burned = true) ∧
    ¬((runOps initSat [SatOp.arm, SatOp.disarm,
        SatOp.burnOp "1" 50 noBurnFaults]).f_burnarm = true ∧
      (runOps initSat [SatOp.arm, SatOp.disarm,
        SatOp.burnOp "1" 50 noBurnFaults]).f_burned = true) :=
  ⟨by decide,
   arm_disarm_burn_never_armed_and_burned initSat
     [SatOp.arm, SatOp.disarm, SatOp.burnOp "1" 50 noBurnFaults]
     (by decide)⟩

/-- C7 counterexample: the claim says that with the LED driver present and a
fault at face 3's power-down, face 4 is still subsequently processed and the
sequence does not abort early.  `all_faces_off` (lines 81-98) has no
`try`/`except`: the face-3 fault propagates, so face 4's duty and capability
entry are untouched. -/
theorem all_faces_off_fault3_face4_untouched :
    (all_faces_off initSat (fun i => decide (i = 3))).1 = some Exc.hw ∧
    (all_faces_off initSat (fun i => decide (i = 3))).2.face4_duty =
      0xFFFF ∧
    (all_faces_off initSat (fun i => decide (i = 3))).2.face4 = true := by
  decide

/-- C7 amended: with FLD present and face 3's power-down faulting, faces
0-2 end with duty 0 and recorded off in the capability table, but the fault
propagates out of `all_faces_off`: face 3's table entry and face 4's duty
and entry are left untouched (early abort, already-processed faces not
rolled back). -/
theorem all_faces_off_fault3_aborts_early (st : Satellite)
    (hfld : st.fld = true) :
    all_faces_off st (fun i => decide (i = 3)) =
      (some .hw,
       { st with face0_duty := 0, face0 := false, face1_duty := 0,
                 face1 := false, face2_duty := 0, face2 := false,
                 writes := st.writes + 1 + 1 + 1 }) := by
  simp [all_faces_off, hfld]

/-- Witness for C7: the amended statement at the freshly initialized state
(all faces on at full duty). -/
theorem all_faces_off_fault3_aborts_early_witness :
    initSat.fld = true ∧
    all_faces_off initSat (fun i => decide (i = 3)) =
      (some .hw,
       { initSat with face0_duty := 0, face0 := false, face1_duty := 0,
                      face1 := false, face2_duty := 0, face2 := false,
                      writes := initSat.writes + 1 + 1 + 1 }) :=
  ⟨rfl, all_faces_off_fault3_aborts_early initSat rfl⟩

/-- C8 counterexample: the claim says the applied 16-bit duty equals
`round(duty_percent/100 * 0xFFFF)`.  Line 663 uses `int(...)`, which
truncates: at `duty_percent = 50` the code produces 32767 while the claimed
rounding gives 32768 (both values exact in binary floating point, so the
exact-rational model agrees with CPython here). -/
theorem duty_conversion_not_round_at_50 :
    dtycyclOf 50 = 32767 ∧ specDuty 50 = 32768 := by
  constructor
  · rw [dtycyclOf, pyInt, if_pos (by norm_num)]
    norm_num
  · rw [specDuty]
    norm_num [round_eq]

/-- C8 amended: for `duty_percent ∈ [0,100]` the applied duty equals the
truncation `⌊duty_percent/100 * 0xFFFF⌋` (Python `int()`, not `round`); it
lies in `[0, 0xFFFF]` and the claimed rounded value exceeds it by at most
one. -/
theorem duty_conversion_truncates (q : ℚ) (h0 : 0 ≤ q) (h1 : q ≤ 100) :
    dtycyclOf q = ⌊q * 65535 / 100⌋ ∧
    0 ≤ dtycyclOf q ∧ dtycyclOf q ≤ 65535 ∧
    (specDuty q = dtycyclOf q ∨ specDuty q = dtycyclOf q + 1) := by
  have hx0 : (0:ℚ) ≤ q / 100 * 65535 := by positivity
  have hfloor : dtycyclOf q = ⌊q / 100 * 65535⌋ := by
    rw [dtycyclOf, pyInt, if_pos hx0]
  refine ⟨?_, ?_, ?_, ?_⟩
  · rw [hfloor]
    congr 1
    ring
  · rw [hfloor]
    exact Int.floor_nonneg.mpr hx0
  · rw [hfloor]
    have hle : q / 100 * 65535 ≤ 65535 := by linarith
    calc ⌊q / 100 * 65535⌋ ≤ ⌊(65535:ℚ)⌋ := Int.floor_le_floor hle
      _ = 65535 := by norm_num
  · rw [specDuty, round_eq, hfloor]
    have lo : ⌊q / 100 * 65535⌋ ≤ ⌊q / 100 * 65535 + 1/2⌋ :=
      Int.floor_le_floor (by linarith)
    have hi : ⌊q / 100 * 65535 + 1/2⌋ ≤ ⌊q / 100 * 65535⌋ + 1 := by
      have h2 : ⌊q / 100 * 65535 + 1/2⌋ ≤ ⌊q / 100 * 65535 + 1⌋ :=
        Int.floor_le_floor (by linarith)
      have h3 : ⌊q / 100 * 65535 + (1:ℚ)⌋ = ⌊q / 100 * 65535⌋ + 1 := by
        exact_mod_cast Int.floor_add_int (q / 100 * 65535) 1
      omega
    omega

/-- Witness for C8: the amended statement at `duty_percent = 50`. -/
theorem duty_conversion_truncates_witness :
    (0:ℚ) ≤ 50 ∧ (50:ℚ) ≤ 100 ∧
    (dtycyclOf 50 = ⌊(50:ℚ) * 65535 / 100⌋ ∧
     0 ≤ dtycyclOf 50 ∧ dtycyclOf 50 ≤ 65535 ∧
     (specDuty 50 = dtycyclOf 50 ∨ specDuty 50 = dtycyclOf 50 + 1)) :=
  ⟨by norm_num, by norm_num,
   duty_conversion_truncates 50 (by norm_num) (by norm_num)⟩

/-- Helper for C9: when every read succeeds, summing `n` reads yields the
sum of the first `n` sample values and performs exactly `n` reads. -/
theorem sumReads_all_some (g : ℕ → ℚ) (n : ℕ) :
    sumReads (fun i => some (g i)) n =
      (some (∑ i in Finset.range n, g i), n) := by
  induction n with
  | zero => simp [sumReads]
  | succ n ih => simp [sumReads, ih, Finset.sum_range_succ]

/-- C9: with the PWR capability present and all sample reads succeeding,
`battery_voltage` returns the mean of exactly 50 consecutive bus-voltage
samples plus the 0.2 V (= 1/5) calibration offset, performing exactly 50
bus reads. -/
theorem battery_voltage_averages_50_samples (st : Satellite) (g : ℕ → ℚ)
    (hpwr : st.pwr = true) :
    battery_voltage st (fun i => some (g i)) =
      (.ok (some ((∑ i in Finset.range 50, g i) / 50 + 1/5)), 50) := by
  simp [battery_voltage, hpwr, sumReads_all_some]

/-- Witness for C9: a source constantly reading 5.0 V yields 5.2 V
(= 26/5). -/
theorem battery_voltage_averages_50_samples_witness :
    initSat.pwr = true ∧
    battery_voltage initSat (fun _ => some 5) = (.ok (some (26/5)), 50) := by
  refine ⟨rfl, ?_⟩
  have h := battery_voltage_averages_50_samples initSat (fun _ => (5:ℚ)) rfl
  simp only [Finset.sum_const, Finset.card_range, nsmul_eq_mul] at h
  norm_num at h
  convert h using 4

/-- C10: within one run with FLD present (and in fact for any state), each
single `heater_on` or `heater_off` call preserves the equality between the
volatile `heating` flag and the persistent `f_brownout` guard flag, under
every fault injection: the two flags are only ever written together
(lines 612-613 and 635-636), and the `except` handlers touch neither. -/
theorem heater_preserves_heating_guard_sync (st : Satellite)
    (fOn : HeaterFaults) (fOff : HeaterOffFaults)
    (h : st.heating = st.f_brownout) :
    (heater_on st fOn).2.heating = (heater_on st fOn).2.f_brownout ∧
    (heater_off st fOff).2.heating = (heater_off st fOff).2.f_brownout := by
  constructor
  · unfold heater_on heaterExceptHandler
    repeat' split
    all_goals
      simp_all [setRGB, apply_ite Satellite.heating,
        apply_ite Satellite.f_brownout,
        apply_ite (Prod.snd : Option Exc × Satellite → Satellite)]
  · unfold heater_off heaterExceptHandler
    repeat' split
    all_goals
      simp_all [setRGB, apply_ite Satellite.heating,
        apply_ite Satellite.f_brownout,
        apply_ite (Prod.snd : Option Exc × Satellite → Satellite)]

/-- Witness for C10: the preservation at the freshly initialized state with
no fault injected. -/
theorem heater_preserves_heating_guard_sync_witness :
    initSat.heating = initSat.f_brownout ∧
    ((heater_on initSat noHeaterFaults).2.heating =
       (heater_on initSat noHeaterFaults).2.f_brownout ∧
     (heater_off initSat noHeaterOffFaults).2.heating =
       (heater_off initSat noHeaterOffFaults).2.f_brownout) :=
  ⟨rfl,
   heater_preserves_heating_guard_sync initSat noHeaterFaults
     noHeaterOffFaults rfl⟩

end Pysquared
